import Mathlib

set_option maxHeartbeats 1000000

/-!
Shallow embedding of the PDF-to-slides converter (scripts/convert_pdf.py).

The script probes a PDF's page count with pdfinfo, resets an output
directory, renders each page one at a time to a 1920x1080 RGB JPEG named
with a zero-padded 3-digit index, and finally writes a JSON metadata file.
External collaborators (pdfinfo, pdf2image, PIL) are modelled as oracles
supplied through a `World` structure; the filesystem is an association
list from paths to entries.
-/

/-! Module-level constants of the script. -/

def OUTPUT_DIR : String := "Web/slides"

def META_PATH : String := "Web/meta.json"

def TARGET_WIDTH : Nat := 1920

def TARGET_HEIGHT : Nat := 1080

def JPG_QUALITY : Nat := 85

def DPI : Nat := 150

/-! Decimal rendering of naturals, modelling Python's str(n) for n >= 0.
Defined with explicit fuel so that it is structurally recursive and hence
evaluable by kernel reduction. -/

def valChars (cs : List Char) : Nat :=
  cs.foldl (fun a c => 10 * a + (c.toNat - 48)) 0

def natDecAux : Nat → Nat → List Char
  | 0, _ => []
  | fuel + 1, n =>
    if n = 0 then [] else natDecAux fuel (n / 10) ++ [Nat.digitChar (n % 10)]

def natDec (n : Nat) : List Char :=
  if n = 0 then ['0'] else natDecAux (n + 1) n

/-- Models the Python format f-string slide_(page_num:03d): the decimal
digits of the index, left-padded with zeros to a minimum width of 3. -/
def pad3 (n : Nat) : List Char :=
  List.replicate (3 - (natDec n).length) '0' ++ natDec n

def slideName (n : Nat) : String :=
  "slide_" ++ String.mk (pad3 n) ++ ".jpg"

/-- os.path.join(OUTPUT_DIR, filename) for the slide of page n. -/
def slidePath (n : Nat) : String :=
  OUTPUT_DIR ++ "/" ++ slideName n

/-- Models os.path.basename: the component after the last slash. -/
def lastComponent (acc : List Char) : List Char → List Char
  | [] => acc
  | c :: cs => if c = '/' then lastComponent [] cs else lastComponent (acc ++ [c]) cs

def os_path_basename (p : String) : String :=
  String.mk (lastComponent [] p.data)

/-! Python string helpers used by get_total_pages. -/

/-- Models line.startswith("Pages:"). -/
def startsWithPages (l : String) : Bool :=
  "Pages:".data.isPrefixOf l.data

def afterFirstColon (cs : List Char) : List Char :=
  (cs.dropWhile (fun c => c != ':')).drop 1

/-- Models line.split(":")[1]: the characters strictly between the first
colon and the second colon (or the end).  The script only evaluates this on
lines that start with "Pages:", which always contain a colon, so the
index-1 access cannot fail there; on a colon-free line this model returns
the empty string. -/
def splitColonIndex1 (l : String) : String :=
  String.mk ((afterFirstColon l.data).takeWhile (fun c => c != ':'))

/-- Models str.strip(): remove leading and trailing whitespace. -/
def pyStrip (s : String) : String :=
  String.mk (((s.data.dropWhile Char.isWhitespace).reverse.dropWhile Char.isWhitespace).reverse)

def digitsVal? (cs : List Char) : Option Int :=
  if cs = [] then none
  else if cs.all Char.isDigit then some (Int.ofNat (valChars cs))
  else none

/-- Models Python int(s) on an already-stripped string: an optional sign
followed by a nonempty run of decimal digits (underscore digit grouping is
not modelled; no input considered here uses it).  `none` corresponds to a
ValueError. -/
def pyInt (s : String) : Option Int :=
  match s.data with
  | [] => none
  | c :: cs =>
    if c = '+' then digitsVal? cs
    else if c = '-' then (digitsVal? cs).map (fun n => -n)
    else digitsVal? (c :: cs)

/-! The page-count probe. -/

inductive PyErr where
  | runtimeError
  | valueError
  deriving DecidableEq

/-- Result of subprocess.run(["pdfinfo", pdf_path], capture_output=True,
text=True): the exit status and the captured stdout, split into lines. -/
structure ProcResult where
  returncode : Int
  stdout : List String
  deriving DecidableEq

/-- The loop body of get_total_pages: scan stdout lines in order; on the
first line starting with "Pages:" return int(line.split(":")[1].strip())
(a malformed payload raises ValueError); if no line matches, raise the
RuntimeError ("MetadataUnavailable"). -/
def findPagesLine : List String → Except PyErr Int
  | [] => .error .runtimeError
  | l :: ls =>
    if startsWithPages l then
      match pyInt (pyStrip (splitColonIndex1 l)) with
      | some n => .ok n
      | none => .error .valueError
    else findPagesLine ls

/-- get_total_pages(pdf_path): parses the pdfinfo output.  Note the script
never inspects result.returncode. -/
def get_total_pages (r : ProcResult) : Except PyErr Int :=
  findPagesLine r.stdout

/-! PIL images, abstracted to the attributes the script manipulates. -/

structure Img where
  width : Nat
  height : Nat
  mode : String
  deriving DecidableEq

/-- img.resize((w, h), Image.LANCZOS): exact target size, mode preserved. -/
def pilResize (img : Img) (w h : Nat) : Img :=
  { img with width := w, height := h }

/-- img.convert(m): same size, new color mode. -/
def pilConvert (img : Img) (m : String) : Img :=
  { img with mode := m }

/-! Filesystem model: an association list from absolute-ish path strings to
entries; List.lookup returns the most recent write. -/

structure MetaJson where
  total_pages : Int
  version : Nat
  generated_at : String
  source_pdf : String
  deriving DecidableEq

inductive Entry where
  | dir
  | jpeg (img : Img) (quality : Nat)
  | json (m : MetaJson)
  deriving DecidableEq

abbrev FS := List (String × Entry)

/-- p is strictly inside directory d (d ++ "/" is a prefix of p). -/
def pathInDir (d p : String) : Bool :=
  (d ++ "/").data.isPrefixOf p.data

def writeFile (p : String) (e : Entry) (fs : FS) : FS :=
  (p, e) :: fs

/-- shutil.rmtree(d): remove the directory and everything beneath it. -/
def rmtree (d : String) (fs : FS) : FS :=
  fs.filter (fun x => !(x.1 == d || pathInDir d x.1))

def makedirs (d : String) (fs : FS) : FS :=
  (d, Entry.dir) :: fs

def pathExists (p : String) (fs : FS) : Bool :=
  (fs.lookup p).isSome

/-- Lines 47-49 of the script: if os.path.exists(OUTPUT_DIR):
shutil.rmtree(OUTPUT_DIR); os.makedirs(OUTPUT_DIR). -/
def resetOutputDir (fs : FS) : FS :=
  makedirs OUTPUT_DIR (if pathExists OUTPUT_DIR fs then rmtree OUTPUT_DIR fs else fs)

/-! The conversion run. -/

/-- Oracles for the external collaborators: the pdfinfo result, the
per-page renderer (convert_from_path with first_page = last_page = i;
none models the renderer raising, some gives the returned list), and the
formatted current UTC time. -/
structure World where
  probe : ProcResult
  render : Nat → Option (List Img)
  now : String

inductive RunError where
  | metadataUnavailable (e : PyErr)
  | renderFailure (page : Nat)
  | indexError (page : Nat)
  deriving DecidableEq

structure RunResult where
  fs : FS
  trace : List (String × Entry)
  result : Except RunError Unit

/-- The for-loop of convert_pdf_to_slides over the remaining page indices:
render the single page, take pages[0] (IndexError if the list is empty),
resize to 1920x1080, convert to RGB when needed, and save the JPEG.  The
trace records the file writes in program order. -/
def renderLoop (w : World) : List Nat → FS → List (String × Entry) → RunResult
  | [], fs, tr => ⟨fs, tr, .ok ()⟩
  | i :: rest, fs, tr =>
    match w.render i with
    | none => ⟨fs, tr, .error (.renderFailure i)⟩
    | some [] => ⟨fs, tr, .error (.indexError i)⟩
    | some (page :: _) =>
      let resized := pilResize page TARGET_WIDTH TARGET_HEIGHT
      let final := if resized.mode ≠ "RGB" then pilConvert resized "RGB" else resized
      renderLoop w rest (writeFile (slidePath i) (.jpeg final JPG_QUALITY) fs)
        (tr ++ [(slidePath i, .jpeg final JPG_QUALITY)])

/-- convert_pdf_to_slides(pdf_path): probe the page count, reset the output
directory, run the render loop over range(1, total_pages + 1), then write
meta.json.  Any exception aborts the run at the point it is raised, leaving
the filesystem as it was at that point. -/
def convert_pdf_to_slides (pdf_path : String) (w : World) (fs : FS) : RunResult :=
  match get_total_pages w.probe with
  | .error e => ⟨fs, [], .error (.metadataUnavailable e)⟩
  | .ok total =>
    match renderLoop w (List.range' 1 total.toNat) (resetOutputDir fs) [] with
    | ⟨fs2, tr, .error e⟩ => ⟨fs2, tr, .error e⟩
    | ⟨fs2, tr, .ok _⟩ =>
      let m : MetaJson := ⟨total, 1, w.now, os_path_basename pdf_path⟩
      ⟨writeFile META_PATH (.json m) fs2, tr ++ [(META_PATH, .json m)], .ok ()⟩

/-! Derived notions used to state properties. -/

/-- The JPEG entry the loop writes for page i, assuming the renderer
returned a nonempty list there (junk value .dir otherwise, never used on
the paths where it matters). -/
def renderedEntry (w : World) (i : Nat) : Entry :=
  match w.render i with
  | some (page :: _) =>
    let resized := pilResize page TARGET_WIDTH TARGET_HEIGHT
    .jpeg (if resized.mode ≠ "RGB" then pilConvert resized "RGB" else resized) JPG_QUALITY
  | _ => .dir

def slideTrace (w : World) (l : List Nat) : List (String × Entry) :=
  l.map (fun i => (slidePath i, renderedEntry w i))

def writeAll (w : World) (l : List Nat) (fs : FS) : FS :=
  l.foldl (fun a i => writeFile (slidePath i) (renderedEntry w i) a) fs

/-- The file writes of a trace that land inside the output directory. -/
def slideWrites (tr : List (String × Entry)) : List (String × Entry) :=
  tr.filter (fun x => pathInDir OUTPUT_DIR x.1)

/-- A sane initial filesystem: files strictly inside the output directory
can only be present when the directory itself exists (true of any real
filesystem state). -/
def dirConsistent (fs : FS) : Prop :=
  pathExists OUTPUT_DIR fs = false → ∀ p, pathInDir OUTPUT_DIR p = true → fs.lookup p = none

/-! Arithmetic facts about the decimal rendering. -/

lemma digitChar_isDigit {d : Nat} (h : d < 10) : (Nat.digitChar d).isDigit = true := by
  interval_cases d <;> decide

lemma digitChar_toNat {d : Nat} (h : d < 10) : (Nat.digitChar d).toNat - 48 = d := by
  interval_cases d <;> decide

lemma valChars_append_singleton (cs : List Char) (c : Char) :
    valChars (cs ++ [c]) = 10 * valChars cs + (c.toNat - 48) := by
  simp [valChars, List.foldl_append]

lemma valChars_natDecAux : ∀ fuel n, n < fuel → valChars (natDecAux fuel n) = n := by
  intro fuel
  induction fuel with
  | zero => intro n h; omega
  | succ f ih =>
    intro n h
    by_cases h0 : n = 0
    · subst h0; simp [natDecAux, valChars]
    · have hd : n % 10 < 10 := Nat.mod_lt _ (by omega)
      have hlt : n / 10 < f := by omega
      rw [natDecAux, if_neg h0, valChars_append_singleton, digitChar_toNat hd, ih _ hlt]
      omega

lemma valChars_natDec (n : Nat) : valChars (natDec n) = n := by
  by_cases h : n = 0
  · subst h; decide
  · rw [natDec, if_neg h]
    exact valChars_natDecAux (n + 1) n (Nat.lt_succ_self n)

lemma foldl_replicate_zero (k : Nat) :
    (List.replicate k '0').foldl (fun a c => 10 * a + (c.toNat - 48)) 0 = 0 := by
  induction k with
  | zero => rfl
  | succ k ih => simpa [List.replicate_succ] using ih

lemma valChars_replicate_append (k : Nat) (cs : List Char) :
    valChars (List.replicate k '0' ++ cs) = valChars cs := by
  simp [valChars, List.foldl_append, foldl_replicate_zero]

lemma valChars_pad3 (n : Nat) : valChars (pad3 n) = n := by
  rw [pad3, valChars_replicate_append, valChars_natDec]

lemma pad3_inj {m n : Nat} (h : pad3 m = pad3 n) : m = n := by
  have h2 := congrArg valChars h
  rwa [valChars_pad3, valChars_pad3] at h2

lemma natDecAux_digits : ∀ fuel n, ∀ c ∈ natDecAux fuel n, c.isDigit = true := by
  intro fuel
  induction fuel with
  | zero => intro n c hc; simp [natDecAux] at hc
  | succ f ih =>
    intro n c hc
    by_cases h0 : n = 0
    · subst h0; simp [natDecAux] at hc
    · rw [natDecAux, if_neg h0] at hc
      rcases List.mem_append.1 hc with h | h
      · exact ih _ _ h
      · rcases List.mem_singleton.1 h with rfl
        exact digitChar_isDigit (Nat.mod_lt _ (by omega))

lemma natDec_digits (n : Nat) : ∀ c ∈ natDec n, c.isDigit = true := by
  intro c hc
  by_cases h : n = 0
  · subst h; simp [natDec] at hc; subst hc; decide
  · rw [natDec, if_neg h] at hc
    exact natDecAux_digits _ _ _ hc

lemma natDec_ne_nil (n : Nat) : natDec n ≠ [] := by
  by_cases h : n = 0
  · subst h; simp [natDec]
  · rw [natDec, if_neg h, natDecAux, if_neg h]
    simp

/-! Slide names and paths. -/

lemma slideName_data (n : Nat) :
    (slideName n).data = "slide_".data ++ (pad3 n ++ ".jpg".data) := rfl

lemma slidePath_data (n : Nat) :
    (slidePath n).data = "Web/slides/slide_".data ++ (pad3 n ++ ".jpg".data) := rfl

lemma slideName_inj {m n : Nat} (h : slideName m = slideName n) : m = n := by
  have hd := congrArg String.data h
  rw [slideName_data, slideName_data] at hd
  exact pad3_inj (List.append_cancel_right (List.append_cancel_left hd))

lemma slidePath_inj {m n : Nat} (h : slidePath m = slidePath n) : m = n := by
  have hd := congrArg String.data h
  rw [slidePath_data, slidePath_data] at hd
  exact pad3_inj (List.append_cancel_right (List.append_cancel_left hd))

lemma pathInDir_slidePath (n : Nat) : pathInDir OUTPUT_DIR (slidePath n) = true := by
  rw [pathInDir, List.isPrefixOf_iff_prefix, slidePath_data]
  refine List.IsPrefix.trans ?_ (List.prefix_append _ _)
  decide

lemma pathInDir_META : pathInDir OUTPUT_DIR META_PATH = false := by decide

lemma pathInDir_self : pathInDir OUTPUT_DIR OUTPUT_DIR = false := by decide

lemma META_ne_OUTPUT : META_PATH ≠ OUTPUT_DIR := by decide

lemma ne_OUTPUT_of_pathInDir {p : String} (h : pathInDir OUTPUT_DIR p = true) :
    p ≠ OUTPUT_DIR := by
  intro he; subst he; rw [pathInDir_self] at h; cases h

lemma slidePath_ne_META (n : Nat) : slidePath n ≠ META_PATH := by
  intro h
  have h2 := pathInDir_slidePath n
  rw [h, pathInDir_META] at h2
  cases h2

lemma slidePath_ne_OUTPUT (n : Nat) : slidePath n ≠ OUTPUT_DIR :=
  ne_OUTPUT_of_pathInDir (pathInDir_slidePath n)


/-! Lookup lemmas for the filesystem model. -/

lemma lookup_cons_ne {p q : String} (h : p ≠ q) (e : Entry) (fs : FS) :
    ((q, e) :: fs).lookup p = fs.lookup p := by
  rw [List.lookup_cons, beq_eq_false_iff_ne.2 h]

lemma lookup_writeFile_self (p : String) (e : Entry) (fs : FS) :
    (writeFile p e fs).lookup p = some e := by
  simp [writeFile]

lemma lookup_writeFile_ne {p q : String} (h : p ≠ q) (e : Entry) (fs : FS) :
    (writeFile q e fs).lookup p = fs.lookup p := by
  rw [writeFile, lookup_cons_ne h]

lemma lookup_filter_none {p : String} {f : String × Entry → Bool} (fs : FS)
    (h : ∀ e, f (p, e) = false) : (fs.filter f).lookup p = none := by
  induction fs with
  | nil => rfl
  | cons x xs ih =>
    obtain ⟨q, e⟩ := x
    rw [List.filter_cons]
    by_cases hpq : p = q
    · subst hpq
      rw [h e]
      simpa using ih
    · cases hf : f (q, e)
      · simpa using ih
      · simpa [lookup_cons_ne hpq] using ih

lemma lookup_filter_keep {p : String} {f : String × Entry → Bool} (fs : FS)
    (h : ∀ e, f (p, e) = true) : (fs.filter f).lookup p = fs.lookup p := by
  induction fs with
  | nil => rfl
  | cons x xs ih =>
    obtain ⟨q, e⟩ := x
    rw [List.filter_cons]
    by_cases hpq : p = q
    · subst hpq
      rw [h e]
      simp [ih]
    · cases hf : f (q, e)
      · simp only [Bool.false_eq_true, if_false]
        rw [lookup_cons_ne hpq]
        exact ih
      · simp only [if_true]
        rw [lookup_cons_ne hpq, lookup_cons_ne hpq]
        exact ih

lemma lookup_rmtree_inDir {p : String} (h : pathInDir OUTPUT_DIR p = true) (fs : FS) :
    (rmtree OUTPUT_DIR fs).lookup p = none := by
  refine lookup_filter_none fs fun e => ?_
  simp [h]

lemma lookup_rmtree_out {p : String} (h1 : p ≠ OUTPUT_DIR)
    (h2 : pathInDir OUTPUT_DIR p = false) (fs : FS) :
    (rmtree OUTPUT_DIR fs).lookup p = fs.lookup p := by
  refine lookup_filter_keep fs fun e => ?_
  simp [h1, h2]

lemma lookup_reset_inDir {p : String} (h : pathInDir OUTPUT_DIR p = true) (fs : FS)
    (hfs : dirConsistent fs) : (resetOutputDir fs).lookup p = none := by
  rw [resetOutputDir, makedirs, lookup_cons_ne (ne_OUTPUT_of_pathInDir h)]
  cases hex : pathExists OUTPUT_DIR fs
  · rw [if_neg (by simp [hex])]
    exact hfs hex p h
  · rw [if_pos (by simp [hex])]
    exact lookup_rmtree_inDir h fs

lemma lookup_reset_out {p : String} (h1 : p ≠ OUTPUT_DIR)
    (h2 : pathInDir OUTPUT_DIR p = false) (fs : FS) :
    (resetOutputDir fs).lookup p = fs.lookup p := by
  rw [resetOutputDir, makedirs, lookup_cons_ne h1]
  cases hex : pathExists OUTPUT_DIR fs
  · rw [if_neg (by simp [hex])]
  · rw [if_pos (by simp [hex])]
    exact lookup_rmtree_out h1 h2 fs

lemma lookup_reset_self (fs : FS) :
    (resetOutputDir fs).lookup OUTPUT_DIR = some Entry.dir := by
  rw [resetOutputDir, makedirs]
  exact List.lookup_cons_self

/-! Lookup after a block of slide writes. -/

lemma writeAll_cons (w : World) (i : Nat) (l : List Nat) (fs : FS) :
    writeAll w (i :: l) fs =
      writeAll w l (writeFile (slidePath i) (renderedEntry w i) fs) := by
  simp [writeAll]

lemma lookup_writeAll (w : World) (l : List Nat) (fs : FS) (p : String) :
    (writeAll w l fs).lookup p =
      match l.reverse.find? (fun i => slidePath i == p) with
      | some i => some (renderedEntry w i)
      | none => fs.lookup p := by
  induction l generalizing fs with
  | nil => simp [writeAll]
  | cons i rest ih =>
    rw [writeAll_cons, ih]
    rw [List.reverse_cons, List.find?_append]
    cases hfind : rest.reverse.find? (fun j => slidePath j == p)
    · cases hp : (slidePath i == p)
      · simp only [Option.none_or, List.find?]
        rw [hp]
        exact lookup_writeFile_ne (fun he => by simp [he.symm] at hp) _ _
      · simp only [Option.none_or, List.find?]
        rw [hp]
        have hpe : p = slidePath i := (beq_iff_eq.1 hp).symm
        subst hpe
        exact lookup_writeFile_self _ _ _
    · simp

lemma find?_beq_self {l : List Nat} {i : Nat} (h : i ∈ l) :
    l.find? (fun j => slidePath j == slidePath i) = some i := by
  induction l with
  | nil => cases h
  | cons a rest ih =>
    by_cases ha : slidePath a = slidePath i
    · have : a = i := slidePath_inj ha
      subst this
      exact List.find?_cons_of_pos _ (by simp)
    · rw [List.find?_cons_of_neg _ (by simp [ha])]
      rcases List.mem_cons.1 h with rfl | hm
      · exact absurd rfl ha
      · exact ih hm

lemma lookup_writeAll_mem {w : World} {n i : Nat} (fs : FS)
    (h1 : 1 ≤ i) (h2 : i ≤ n) :
    (writeAll w (List.range' 1 n) fs).lookup (slidePath i) =
      some (renderedEntry w i) := by
  rw [lookup_writeAll]
  have hm : i ∈ (List.range' 1 n).reverse := by
    rw [List.mem_reverse, List.mem_range'_1]
    omega
  rw [find?_beq_self hm]

lemma lookup_writeAll_not_slide {w : World} {l : List Nat} {p : String} (fs : FS)
    (h : ∀ i ∈ l, slidePath i ≠ p) :
    (writeAll w l fs).lookup p = fs.lookup p := by
  rw [lookup_writeAll]
  have : l.reverse.find? (fun i => slidePath i == p) = none := by
    rw [List.find?_eq_none]
    intro x hx
    simp [h x (List.mem_reverse.1 hx)]
  rw [this]

/-! Structural lemmas about the render loop. -/

lemma renderedEntry_of_render {w : World} {i : Nat} {a : Img} {r : List Img}
    (h : w.render i = some (a :: r)) :
    renderedEntry w i =
      .jpeg (if (pilResize a TARGET_WIDTH TARGET_HEIGHT).mode ≠ "RGB" then
               pilConvert (pilResize a TARGET_WIDTH TARGET_HEIGHT) "RGB"
             else pilResize a TARGET_WIDTH TARGET_HEIGHT) JPG_QUALITY := by
  rw [renderedEntry, h]

lemma renderLoop_result_ok (w : World) : ∀ (l : List Nat) (fs : FS)
    (tr : List (String × Entry)), (renderLoop w l fs tr).result = .ok () →
    renderLoop w l fs tr = ⟨writeAll w l fs, tr ++ slideTrace w l, .ok ()⟩ := by
  intro l
  induction l with
  | nil => intro fs tr _; simp [renderLoop, writeAll, slideTrace]
  | cons i rest ih =>
    intro fs tr hres
    cases hr : w.render i with
    | none =>
      rw [renderLoop, hr] at hres
      cases hres
    | some pgs =>
      cases pgs with
      | nil =>
        rw [renderLoop, hr] at hres
        cases hres
      | cons a r =>
        rw [renderLoop, hr] at hres ⊢
        simp only at hres ⊢
        rw [ih _ _ hres]
        simp [writeAll_cons, slideTrace, renderedEntry_of_render hr]

lemma renderLoop_fail_render (w : World) : ∀ (l₁ : List Nat) (i : Nat)
    (l₂ : List Nat) (fs : FS) (tr : List (String × Entry)),
    (∀ j ∈ l₁, ∃ a r, w.render j = some (a :: r)) → w.render i = none →
    renderLoop w (l₁ ++ i :: l₂) fs tr =
      ⟨writeAll w l₁ fs, tr ++ slideTrace w l₁, .error (.renderFailure i)⟩ := by
  intro l₁
  induction l₁ with
  | nil =>
    intro i l₂ fs tr _ hfail
    rw [List.nil_append, renderLoop, hfail]
    simp [writeAll, slideTrace]
  | cons j rest ih =>
    intro i l₂ fs tr hprev hfail
    obtain ⟨a, r, hr⟩ := hprev j (List.mem_cons_self j rest)
    rw [List.cons_append, renderLoop, hr]
    simp only
    rw [ih i l₂ _ _ (fun k hk => hprev k (List.mem_cons_of_mem j hk)) hfail]
    simp [writeAll_cons, slideTrace, renderedEntry_of_render hr]

lemma renderLoop_frame (w : World) : ∀ (l : List Nat) (fs : FS)
    (tr : List (String × Entry)) (p : String), (∀ i ∈ l, slidePath i ≠ p) →
    (renderLoop w l fs tr).fs.lookup p = fs.lookup p := by
  intro l
  induction l with
  | nil => intro fs tr p _; rfl
  | cons i rest ih =>
    intro fs tr p h
    cases hr : w.render i with
    | none => rw [renderLoop, hr]
    | some pgs =>
      cases pgs with
      | nil => rw [renderLoop, hr]
      | cons a r =>
        rw [renderLoop, hr]
        simp only
        rw [ih _ _ _ (fun k hk => h k (List.mem_cons_of_mem i hk))]
        exact lookup_writeFile_ne (fun he => h i (List.mem_cons_self i rest) he.symm) _ _

lemma renderLoop_trace_shape (w : World) : ∀ (l : List Nat) (fs : FS)
    (tr : List (String × Entry)) (x : String × Entry),
    x ∈ (renderLoop w l fs tr).trace →
    x ∈ tr ∨ ∃ i ∈ l, x = (slidePath i, renderedEntry w i) := by
  intro l
  induction l with
  | nil => intro fs tr x hx; exact Or.inl hx
  | cons i rest ih =>
    intro fs tr x hx
    cases hr : w.render i with
    | none =>
      rw [renderLoop, hr] at hx
      exact Or.inl hx
    | some pgs =>
      cases pgs with
      | nil =>
        rw [renderLoop, hr] at hx
        exact Or.inl hx
      | cons a r =>
        rw [renderLoop, hr] at hx
        simp only at hx
        rcases ih _ _ _ hx with hin | ⟨j, hj, hxe⟩
        · rcases List.mem_append.1 hin with h1 | h2
          · exact Or.inl h1
          · rcases List.mem_singleton.1 h2 with rfl
            exact Or.inr ⟨i, List.mem_cons_self i rest, by rw [renderedEntry_of_render hr]⟩
        · exact Or.inr ⟨j, List.mem_cons_of_mem i hj, hxe⟩

lemma renderLoop_result_dep {w w' : World} (hr : w.render = w'.render) :
    ∀ (l : List Nat) (fs tr fs' tr'),
    (renderLoop w l fs tr).result = (renderLoop w' l fs' tr').result := by
  intro l
  induction l with
  | nil => intro fs tr fs' tr'; rfl
  | cons i rest ih =>
    intro fs tr fs' tr'
    cases hri : w.render i with
    | none => rw [renderLoop, renderLoop, hri, ← hr, hri]
    | some pgs =>
      cases pgs with
      | nil => rw [renderLoop, renderLoop, hri, ← hr, hri]
      | cons a r =>
        rw [renderLoop, renderLoop, hri, ← hr, hri]
        simp only
        exact ih _ _ _ _

lemma renderLoop_no_indexError (w : World) : ∀ (l : List Nat) (fs : FS)
    (tr : List (String × Entry)), (∀ i ∈ l, w.render i ≠ some []) →
    ∀ k, (renderLoop w l fs tr).result ≠ .error (.indexError k) := by
  intro l
  induction l with
  | nil => intro fs tr _ k h; cases h
  | cons i rest ih =>
    intro fs tr hne k
    cases hr : w.render i with
    | none =>
      rw [renderLoop, hr]
      intro h
      cases h
    | some pgs =>
      cases pgs with
      | nil => exact absurd hr (hne i (List.mem_cons_self i rest))
      | cons a r =>
        rw [renderLoop, hr]
        simp only
        exact ih _ _ (fun j hj => hne j (List.mem_cons_of_mem i hj)) k

/-! Characterizations of whole runs. -/

lemma convert_probe_error {pdf : String} {w : World} {fs : FS} {e : PyErr}
    (h : get_total_pages w.probe = .error e) :
    convert_pdf_to_slides pdf w fs = ⟨fs, [], .error (.metadataUnavailable e)⟩ := by
  rw [convert_pdf_to_slides, h]

lemma convert_of_loop (pdf : String) (w : World) (fs : FS) {n : Int}
    (h : get_total_pages w.probe = .ok n) :
    convert_pdf_to_slides pdf w fs =
      match renderLoop w (List.range' 1 n.toNat) (resetOutputDir fs) [] with
      | ⟨fs2, tr, .error e⟩ => ⟨fs2, tr, .error e⟩
      | ⟨fs2, tr, .ok _⟩ =>
        ⟨writeFile META_PATH (.json ⟨n, 1, w.now, os_path_basename pdf⟩) fs2,
         tr ++ [(META_PATH, .json ⟨n, 1, w.now, os_path_basename pdf⟩)], .ok ()⟩ := by
  rw [convert_pdf_to_slides, h]

lemma convert_ok_eq {pdf : String} {w : World} {fs0 : FS} {n : Int}
    (hN : get_total_pages w.probe = .ok n)
    (hok : (convert_pdf_to_slides pdf w fs0).result = .ok ()) :
    convert_pdf_to_slides pdf w fs0 =
      ⟨writeFile META_PATH (Entry.json ⟨n, 1, w.now, os_path_basename pdf⟩)
         (writeAll w (List.range' 1 n.toNat) (resetOutputDir fs0)),
       slideTrace w (List.range' 1 n.toNat) ++
         [(META_PATH, Entry.json ⟨n, 1, w.now, os_path_basename pdf⟩)],
       .ok ()⟩ := by
  have hstep := convert_of_loop pdf w fs0 hN
  cases hloop : renderLoop w (List.range' 1 n.toNat) (resetOutputDir fs0) [] with
  | mk fs2 tr res =>
    rw [hloop] at hstep
    cases res with
    | error e =>
      rw [hstep] at hok
      simp at hok
    | ok u =>
      have h2 : (renderLoop w (List.range' 1 n.toNat) (resetOutputDir fs0) []).result
          = .ok () := by rw [hloop]
      have h3 := renderLoop_result_ok w _ _ _ h2
      rw [hloop] at h3
      rw [RunResult.mk.injEq] at h3
      obtain ⟨hfs2, htr, -⟩ := h3
      rw [hstep, hfs2, htr]
      simp

lemma convert_fail_eq (pdf : String) (w : World) (fs0 : FS) {n : Int} {i : Nat}
    (hN : get_total_pages w.probe = .ok n)
    (hi1 : 1 ≤ i) (hi2 : i ≤ n.toNat)
    (hprev : ∀ j, 1 ≤ j → j < i → ∃ a r, w.render j = some (a :: r))
    (hfail : w.render i = none) :
    convert_pdf_to_slides pdf w fs0 =
      ⟨writeAll w (List.range' 1 (i - 1)) (resetOutputDir fs0),
       slideTrace w (List.range' 1 (i - 1)), .error (.renderFailure i)⟩ := by
  have hsplit : List.range' 1 n.toNat
      = List.range' 1 (i - 1) ++ i :: List.range' (i + 1) (n.toNat - i) := by
    have h1 := List.range'_append_1 1 (i - 1) (n.toNat - (i - 1))
    rw [show 1 + (i - 1) = i by omega,
        show n.toNat - (i - 1) = (n.toNat - i) + 1 by omega,
        List.range'_succ] at h1
    nth_rewrite 1 [show n.toNat = n.toNat - i + 1 + (i - 1) by omega]
    exact h1.symm
  have hloop := renderLoop_fail_render w (List.range' 1 (i - 1)) i
    (List.range' (i + 1) (n.toNat - i)) (resetOutputDir fs0) []
    (fun j hj => by
      have hm := List.mem_range'_1.1 hj
      exact hprev j (by omega) (by omega)) hfail
  rw [convert_of_loop pdf w fs0 hN, hsplit, hloop]
  simp

lemma convert_error_frame {pdf : String} {w : World} {fs0 : FS} {e : RunError}
    (herr : (convert_pdf_to_slides pdf w fs0).result = .error e) :
    (convert_pdf_to_slides pdf w fs0).fs.lookup META_PATH = fs0.lookup META_PATH
    ∧ ∀ x ∈ (convert_pdf_to_slides pdf w fs0).trace, x.1 ≠ META_PATH := by
  cases hN : get_total_pages w.probe with
  | error e' =>
    rw [convert_probe_error hN]
    exact ⟨rfl, by intro x hx; cases hx⟩
  | ok n =>
    have hstep := convert_of_loop pdf w fs0 hN
    cases hloop : renderLoop w (List.range' 1 n.toNat) (resetOutputDir fs0) [] with
    | mk fs2 tr res =>
      rw [hloop] at hstep
      cases res with
      | ok u =>
        rw [hstep] at herr
        simp at herr
      | error e' =>
        rw [hstep]
        constructor
        · have hfr := renderLoop_frame w (List.range' 1 n.toNat) (resetOutputDir fs0) []
            META_PATH (fun i _ => slidePath_ne_META i)
          rw [hloop] at hfr
          simp only at hfr
          rw [hfr]
          exact lookup_reset_out META_ne_OUTPUT pathInDir_META fs0
        · intro x hx
          have hsh := renderLoop_trace_shape w (List.range' 1 n.toNat) (resetOutputDir fs0) [] x
          rw [hloop] at hsh
          rcases hsh hx with hin | ⟨i, _, rfl⟩
          · cases hin
          · exact slidePath_ne_META i

lemma convert_result_dep {pdf pdf' : String} {w w' : World} (hp : w.probe = w'.probe)
    (hr : w.render = w'.render) (fs fs' : FS) :
    (convert_pdf_to_slides pdf w fs).result = (convert_pdf_to_slides pdf' w' fs').result := by
  cases hN : get_total_pages w.probe with
  | error e =>
    rw [convert_probe_error hN, convert_probe_error (by rw [← hp]; exact hN)]
  | ok n =>
    rw [convert_of_loop pdf w fs hN, convert_of_loop pdf' w' fs'
      (by rw [← hp]; exact hN)]
    have hres := renderLoop_result_dep hr (List.range' 1 n.toNat)
      (resetOutputDir fs) [] (resetOutputDir fs') []
    cases h1 : renderLoop w (List.range' 1 n.toNat) (resetOutputDir fs) [] with
    | mk f1 t1 r1 =>
      cases h2 : renderLoop w' (List.range' 1 n.toNat) (resetOutputDir fs') [] with
      | mk f2 t2 r2 =>
        rw [h1, h2] at hres
        simp only at hres
        subst hres
        cases r1 with
        | error e => simp
        | ok u => simp

/-! Shape of the written slide entries and traces. -/

lemma renderedEntry_jpeg {w : World} {i : Nat} {img : Img} {q : Nat}
    (h : renderedEntry w i = .jpeg img q) :
    img.width = TARGET_WIDTH ∧ img.height = TARGET_HEIGHT ∧ img.mode = "RGB"
    ∧ q = JPG_QUALITY := by
  rw [renderedEntry] at h
  cases hr : w.render i with
  | none => rw [hr] at h; cases h
  | some pgs =>
    cases pgs with
    | nil => rw [hr] at h; cases h
    | cons a r =>
      rw [hr] at h
      simp only at h
      by_cases hm : (pilResize a TARGET_WIDTH TARGET_HEIGHT).mode ≠ "RGB"
      · rw [if_pos hm] at h
        cases h
        exact ⟨rfl, rfl, rfl, rfl⟩
      · rw [if_neg hm] at h
        cases h
        exact ⟨rfl, rfl, not_not.1 hm, rfl⟩

lemma slideWrites_slideTrace (w : World) (l : List Nat) :
    slideWrites (slideTrace w l) = slideTrace w l := by
  rw [slideWrites]
  refine List.filter_eq_self.2 (fun x hx => ?_)
  rcases List.mem_map.1 hx with ⟨i, _, rfl⟩
  simpa using pathInDir_slidePath i

lemma slideWrites_ok (w : World) (l : List Nat) (m : MetaJson) :
    slideWrites (slideTrace w l ++ [(META_PATH, Entry.json m)]) = slideTrace w l := by
  rw [slideWrites, List.filter_append]
  have h1 := slideWrites_slideTrace w l
  rw [slideWrites] at h1
  rw [h1]
  simp [pathInDir_META]

/-! Facts about digits and the Pages line parsing. -/

lemma isDigit_ne_char {c d : Char} (h : c.isDigit = true) (hd : d.isDigit = false) :
    c ≠ d := by
  intro he
  subst he
  rw [h] at hd
  cases hd

lemma isDigit_not_whitespace {c : Char} (h : c.isDigit = true) :
    c.isWhitespace = false := by
  by_contra hw
  have hw2 : c.isWhitespace = true := by
    cases hcw : c.isWhitespace
    · exact absurd hcw hw
    · rfl
  rw [Char.isWhitespace] at hw2
  simp only [Bool.or_eq_true, decide_eq_true_eq] at hw2
  rcases hw2 with ((rfl | rfl) | rfl) | rfl <;> exact absurd h (by decide)

lemma bne_colon_of_digit {c : Char} (h : c.isDigit = true) : (c != ':') = true :=
  bne_iff_ne.2 (isDigit_ne_char h (by decide))

lemma takeWhile_eq_self_of {p : Char → Bool} :
    ∀ (cs : List Char), (∀ c ∈ cs, p c = true) → cs.takeWhile p = cs := by
  intro cs
  induction cs with
  | nil => intro _; rfl
  | cons a l ih =>
    intro h
    rw [List.takeWhile_cons, h a (List.mem_cons_self a l)]
    simp only [if_true]
    rw [ih (fun c hc => h c (List.mem_cons_of_mem a hc))]

lemma dropWhile_ws_of_digits :
    ∀ (cs : List Char), (∀ c ∈ cs, c.isDigit = true) →
    cs.dropWhile Char.isWhitespace = cs := by
  intro cs h
  cases cs with
  | nil => rfl
  | cons a l =>
    rw [List.dropWhile_cons, isDigit_not_whitespace (h a (List.mem_cons_self a l))]
    simp

lemma pyStrip_space_digits (n : Nat) :
    pyStrip (String.mk (' ' :: natDec n)) = String.mk (natDec n) := by
  rw [pyStrip]
  congr 1
  have h1 : (String.mk (' ' :: natDec n)).data = ' ' :: natDec n := rfl
  rw [h1, List.dropWhile_cons]
  simp only [Char.isWhitespace]
  rw [if_pos (by decide)]
  rw [dropWhile_ws_of_digits (natDec n) (natDec_digits n)]
  rw [dropWhile_ws_of_digits ((natDec n).reverse)
    (fun c hc => natDec_digits n c (List.mem_reverse.1 hc))]
  exact List.reverse_reverse _

lemma pyInt_mk_cons (c : Char) (cs : List Char) :
    pyInt (String.mk (c :: cs)) =
      if c = '+' then digitsVal? cs
      else if c = '-' then (digitsVal? cs).map (fun n => -n)
      else digitsVal? (c :: cs) := rfl

lemma pyInt_natDec (n : Nat) : pyInt (String.mk (natDec n)) = some (Int.ofNat n) := by
  have hd := natDec_digits n
  cases hc : natDec n with
  | nil => exact absurd hc (natDec_ne_nil n)
  | cons c cs =>
    rw [hc] at hd
    have hcd : c.isDigit = true := hd c (List.mem_cons_self c cs)
    have hplus : c ≠ '+' := isDigit_ne_char hcd (by decide)
    have hminus : c ≠ '-' := isDigit_ne_char hcd (by decide)
    rw [pyInt_mk_cons, if_neg hplus, if_neg hminus, digitsVal?]
    rw [if_neg (by simp), if_pos (List.all_eq_true.2 (fun c hc => hd c hc))]
    rw [show c :: cs = natDec n from hc.symm, valChars_natDec]

lemma startsWithPages_line (n : Nat) :
    startsWithPages ("Pages: " ++ String.mk (natDec n)) = true := rfl

lemma afterFirstColon_line (n : Nat) :
    afterFirstColon (("Pages: " ++ String.mk (natDec n)).data) = ' ' :: natDec n := rfl

lemma splitColonIndex1_line (n : Nat) :
    splitColonIndex1 ("Pages: " ++ String.mk (natDec n)) = String.mk (' ' :: natDec n) := by
  rw [splitColonIndex1, afterFirstColon_line]
  congr 1
  refine takeWhile_eq_self_of _ (fun c hc => ?_)
  rcases List.mem_cons.1 hc with rfl | hm
  · decide
  · exact bne_colon_of_digit (natDec_digits n c hm)

lemma findPagesLine_found (pre : List String) (n : Nat) (post : List String)
    (hpre : ∀ l ∈ pre, startsWithPages l = false) :
    findPagesLine (pre ++ ("Pages: " ++ String.mk (natDec n)) :: post)
      = .ok (Int.ofNat n) := by
  induction pre with
  | nil =>
    rw [List.nil_append, findPagesLine, if_pos (startsWithPages_line n)]
    rw [splitColonIndex1_line, pyStrip_space_digits, pyInt_natDec]
  | cons a pre ih =>
    rw [List.cons_append, findPagesLine,
      if_neg (by simp [hpre a (List.mem_cons_self a pre)])]
    exact ih (fun l hl => hpre l (List.mem_cons_of_mem a hl))

lemma findPagesLine_runtimeError (ls : List String) :
    findPagesLine ls = .error .runtimeError ↔ ∀ l ∈ ls, startsWithPages l = false := by
  induction ls with
  | nil => simp [findPagesLine]
  | cons a ls ih =>
    rw [findPagesLine]
    by_cases ha : startsWithPages a = true
    · rw [if_pos ha]
      have hnot : ¬ ∀ l ∈ a :: ls, startsWithPages l = false := by
        intro h
        rw [h a (List.mem_cons_self a ls)] at ha
        exact Bool.noConfusion ha
      cases hp : pyInt (pyStrip (splitColonIndex1 a)) with
      | none => simp [ha]
      | some m => simp [ha]
    · have ha' : startsWithPages a = false := by simpa using ha
      rw [if_neg ha, ih]
      constructor
      · intro h l hl
        rcases List.mem_cons.1 hl with rfl | hm
        · exact ha'
        · exact h l hm
      · intro h l hl
        exact h l (List.mem_cons_of_mem a hl)

/-! Corollaries about the final state of a successful run. -/

lemma dirConsistent_of_exists {fs : FS} (hex : pathExists OUTPUT_DIR fs = true) :
    dirConsistent fs := by
  intro hfalse
  rw [hex] at hfalse
  cases hfalse

lemma convert_ok_lookup_meta {pdf : String} {w : World} {fs0 : FS} {n : Int}
    (hN : get_total_pages w.probe = .ok n)
    (hok : (convert_pdf_to_slides pdf w fs0).result = .ok ()) :
    (convert_pdf_to_slides pdf w fs0).fs.lookup META_PATH
      = some (Entry.json ⟨n, 1, w.now, os_path_basename pdf⟩) := by
  rw [convert_ok_eq hN hok]
  exact lookup_writeFile_self _ _ _

lemma convert_ok_lookup_slide {pdf : String} {w : World} {fs0 : FS} {n : Int} {i : Nat}
    (hN : get_total_pages w.probe = .ok n)
    (hok : (convert_pdf_to_slides pdf w fs0).result = .ok ())
    (h1 : 1 ≤ i) (h2 : i ≤ n.toNat) :
    (convert_pdf_to_slides pdf w fs0).fs.lookup (slidePath i)
      = some (renderedEntry w i) := by
  rw [convert_ok_eq hN hok]
  have hne : slidePath i ≠ META_PATH := slidePath_ne_META i
  calc (writeFile META_PATH (Entry.json ⟨n, 1, w.now, os_path_basename pdf⟩)
          (writeAll w (List.range' 1 n.toNat) (resetOutputDir fs0))).lookup (slidePath i)
      = (writeAll w (List.range' 1 n.toNat) (resetOutputDir fs0)).lookup (slidePath i) :=
        lookup_writeFile_ne hne _ _
    _ = some (renderedEntry w i) := lookup_writeAll_mem _ h1 h2

lemma convert_ok_lookup_inDir_none {pdf : String} {w : World} {fs0 : FS} {n : Int}
    {p : String} (hN : get_total_pages w.probe = .ok n)
    (hok : (convert_pdf_to_slides pdf w fs0).result = .ok ())
    (hfs : dirConsistent fs0) (hp : pathInDir OUTPUT_DIR p = true)
    (hns : ∀ i, 1 ≤ i → i ≤ n.toNat → p ≠ slidePath i) :
    (convert_pdf_to_slides pdf w fs0).fs.lookup p = none := by
  rw [convert_ok_eq hN hok]
  have hmeta : p ≠ META_PATH := fun he => by rw [he, pathInDir_META] at hp; cases hp
  calc (writeFile META_PATH (Entry.json ⟨n, 1, w.now, os_path_basename pdf⟩)
          (writeAll w (List.range' 1 n.toNat) (resetOutputDir fs0))).lookup p
      = (writeAll w (List.range' 1 n.toNat) (resetOutputDir fs0)).lookup p :=
        lookup_writeFile_ne hmeta _ _
    _ = (resetOutputDir fs0).lookup p := by
        refine lookup_writeAll_not_slide _ (fun i hi he => ?_)
        rw [List.mem_range'_1] at hi
        exact hns i (by omega) (by omega) he.symm
    _ = none := lookup_reset_inDir hp fs0 hfs

lemma convert_ok_lookup_out {pdf : String} {w : World} {fs0 : FS} {n : Int}
    {p : String} (hN : get_total_pages w.probe = .ok n)
    (hok : (convert_pdf_to_slides pdf w fs0).result = .ok ())
    (hmeta : p ≠ META_PATH) (hdir : p ≠ OUTPUT_DIR)
    (hin : pathInDir OUTPUT_DIR p = false) :
    (convert_pdf_to_slides pdf w fs0).fs.lookup p = fs0.lookup p := by
  rw [convert_ok_eq hN hok]
  calc (writeFile META_PATH (Entry.json ⟨n, 1, w.now, os_path_basename pdf⟩)
          (writeAll w (List.range' 1 n.toNat) (resetOutputDir fs0))).lookup p
      = (writeAll w (List.range' 1 n.toNat) (resetOutputDir fs0)).lookup p :=
        lookup_writeFile_ne hmeta _ _
    _ = (resetOutputDir fs0).lookup p := by
        refine lookup_writeAll_not_slide _ (fun i _ he => ?_)
        rw [← he, pathInDir_slidePath i] at hin
        cases hin
    _ = fs0.lookup p := lookup_reset_out hdir hin fs0

lemma convert_ok_lookup_dir {pdf : String} {w : World} {fs0 : FS} {n : Int}
    (hN : get_total_pages w.probe = .ok n)
    (hok : (convert_pdf_to_slides pdf w fs0).result = .ok ()) :
    (convert_pdf_to_slides pdf w fs0).fs.lookup OUTPUT_DIR = some Entry.dir := by
  rw [convert_ok_eq hN hok]
  calc (writeFile META_PATH (Entry.json ⟨n, 1, w.now, os_path_basename pdf⟩)
          (writeAll w (List.range' 1 n.toNat) (resetOutputDir fs0))).lookup OUTPUT_DIR
      = (writeAll w (List.range' 1 n.toNat) (resetOutputDir fs0)).lookup OUTPUT_DIR :=
        lookup_writeFile_ne (Ne.symm META_ne_OUTPUT) _ _
    _ = (resetOutputDir fs0).lookup OUTPUT_DIR :=
        lookup_writeAll_not_slide _ (fun i _ => slidePath_ne_OUTPUT i)
    _ = some Entry.dir := lookup_reset_self fs0

lemma convert_ok_trace {pdf : String} {w : World} {fs0 : FS} {n : Int}
    (hN : get_total_pages w.probe = .ok n)
    (hok : (convert_pdf_to_slides pdf w fs0).result = .ok ()) :
    slideWrites (convert_pdf_to_slides pdf w fs0).trace
      = slideTrace w (List.range' 1 n.toNat) := by
  rw [convert_ok_eq hN hok]
  exact slideWrites_ok w _ _

lemma convert_trace_jpeg {pdf : String} {w : World} {fs0 : FS} {p : String}
    {img : Img} {q : Nat}
    (hmem : (p, Entry.jpeg img q) ∈ (convert_pdf_to_slides pdf w fs0).trace) :
    ∃ i, p = slidePath i ∧ renderedEntry w i = Entry.jpeg img q := by
  cases hN : get_total_pages w.probe with
  | error e =>
    rw [convert_probe_error hN] at hmem
    cases hmem
  | ok n =>
    have hstep := convert_of_loop pdf w fs0 hN
    cases hloop : renderLoop w (List.range' 1 n.toNat) (resetOutputDir fs0) [] with
    | mk fs2 tr res =>
      rw [hloop] at hstep
      have htr : ∀ x ∈ tr,
          ∃ i ∈ List.range' 1 n.toNat, x = (slidePath i, renderedEntry w i) := by
        intro x hx
        have hsh := renderLoop_trace_shape w (List.range' 1 n.toNat) (resetOutputDir fs0) [] x
        rw [hloop] at hsh
        rcases hsh hx with h0 | hgood
        · cases h0
        · exact hgood
      cases res with
      | error e =>
        rw [hstep] at hmem
        simp only at hmem
        obtain ⟨i, _, hxe⟩ := htr _ hmem
        rw [Prod.mk.injEq] at hxe
        exact ⟨i, hxe.1, hxe.2.symm⟩
      | ok u =>
        rw [hstep] at hmem
        simp only at hmem
        rcases List.mem_append.1 hmem with hin | hjson
        · obtain ⟨i, _, hxe⟩ := htr _ hin
          rw [Prod.mk.injEq] at hxe
          exact ⟨i, hxe.1, hxe.2.symm⟩
        · rcases List.mem_singleton.1 hjson with hx
          rw [Prod.mk.injEq] at hx
          exact absurd hx.2 (by intro hc; cases hc)

/-! Claim theorems. -/

/-- C4: if the page-count probe fails (raises), the run aborts before any
filesystem side effect: the filesystem is returned unchanged (the output
directory is neither deleted, created, nor written to, and the metadata
file is neither created nor overwritten), no write events occur, and the
run terminates with the MetadataUnavailable error -- the probe runs
strictly before the directory reset. -/
theorem C4_probe_failure_aborts_early (pdf : String) (w : World) (fs0 : FS) (e : PyErr)
    (h : get_total_pages w.probe = .error e) :
    (convert_pdf_to_slides pdf w fs0).fs = fs0
    ∧ (convert_pdf_to_slides pdf w fs0).trace = []
    ∧ (convert_pdf_to_slides pdf w fs0).result = .error (.metadataUnavailable e) := by
  rw [convert_probe_error h]
  exact ⟨rfl, rfl, rfl⟩

/-- Witness for C4 at a concrete corrupt-PDF probe output and a filesystem
holding a metadata file from an earlier run. -/
theorem C4_witness :
    get_total_pages (ProcResult.mk 1 ["Error: corrupt"]) = .error PyErr.runtimeError
    ∧ ((convert_pdf_to_slides "deck.pdf"
          ⟨⟨1, ["Error: corrupt"]⟩, fun _ => none, "T1"⟩
          [(META_PATH, Entry.json ⟨3, 1, "T0", "old.pdf"⟩)]).fs
        = [(META_PATH, Entry.json ⟨3, 1, "T0", "old.pdf"⟩)]
      ∧ (convert_pdf_to_slides "deck.pdf"
          ⟨⟨1, ["Error: corrupt"]⟩, fun _ => none, "T1"⟩
          [(META_PATH, Entry.json ⟨3, 1, "T0", "old.pdf"⟩)]).trace = []
      ∧ (convert_pdf_to_slides "deck.pdf"
          ⟨⟨1, ["Error: corrupt"]⟩, fun _ => none, "T1"⟩
          [(META_PATH, Entry.json ⟨3, 1, "T0", "old.pdf"⟩)]).result
        = .error (.metadataUnavailable PyErr.runtimeError)) :=
  ⟨rfl, C4_probe_failure_aborts_early "deck.pdf"
    ⟨⟨1, ["Error: corrupt"]⟩, fun _ => none, "T1"⟩
    [(META_PATH, Entry.json ⟨3, 1, "T0", "old.pdf"⟩)] PyErr.runtimeError rfl⟩

/-- C5: every slide image written by a run (successful or not) has exactly
the fixed pixel dimensions 1920x1080 and 3-channel RGB color mode,
regardless of the source page's size or color mode. -/
theorem C5_fixed_resolution (pdf : String) (w : World) (fs0 : FS) (p : String)
    (img : Img) (q : Nat)
    (h : (p, Entry.jpeg img q) ∈ (convert_pdf_to_slides pdf w fs0).trace) :
    img.width = 1920 ∧ img.height = 1080 ∧ img.mode = "RGB" := by
  obtain ⟨i, -, he⟩ := convert_trace_jpeg h
  obtain ⟨h1, h2, h3, -⟩ := renderedEntry_jpeg he
  exact ⟨h1, h2, h3⟩

/-- Witness for C5: a run on a two-page source whose renderer yields
800x600 RGBA rasters still writes a 1920x1080 RGB slide. -/
theorem C5_witness :
    (slidePath 1, Entry.jpeg ⟨1920, 1080, "RGB"⟩ 85)
        ∈ (convert_pdf_to_slides "deck.pdf"
            ⟨⟨0, ["Pages: 2"]⟩, fun _ => some [⟨800, 600, "RGBA"⟩], "T"⟩ []).trace
    ∧ (Img.mk 1920 1080 "RGB").width = 1920
      ∧ (Img.mk 1920 1080 "RGB").height = 1080
      ∧ (Img.mk 1920 1080 "RGB").mode = "RGB" :=
  ⟨by decide, C5_fixed_resolution "deck.pdf"
    ⟨⟨0, ["Pages: 2"]⟩, fun _ => some [⟨800, 600, "RGBA"⟩], "T"⟩ []
    (slidePath 1) ⟨1920, 1080, "RGB"⟩ 85 (by decide)⟩

/-- C10: the render result is accessed by unguarded indexing at position 0;
under the precondition that the renderer returns a nonempty list for every
requested single-page range with 1 <= i <= pageCount, the IndexError
branch of the loop is unreachable for every run. -/
theorem C10_pages_index_safe (pdf : String) (w : World) (fs0 : FS) (n : Nat)
    (hN : get_total_pages w.probe = .ok (Int.ofNat n))
    (hre : ∀ i, 1 ≤ i → i ≤ n → ∃ a r, w.render i = some (a :: r)) :
    ∀ k, (convert_pdf_to_slides pdf w fs0).result ≠ .error (.indexError k) := by
  intro k
  have ht : (Int.ofNat n).toNat = n := rfl
  have hne : ∀ i ∈ List.range' 1 (Int.ofNat n).toNat, w.render i ≠ some [] := by
    intro i hi
    rw [ht, List.mem_range'_1] at hi
    obtain ⟨a, r, hrr⟩ := hre i (by omega) (by omega)
    rw [hrr]
    intro hc
    simp at hc
  have hloopthm := renderLoop_no_indexError w (List.range' 1 (Int.ofNat n).toNat)
    (resetOutputDir fs0) [] hne k
  rw [convert_of_loop pdf w fs0 hN]
  cases hloop : renderLoop w (List.range' 1 (Int.ofNat n).toNat) (resetOutputDir fs0) [] with
  | mk fs2 tr res =>
    rw [hloop] at hloopthm
    cases res with
    | error e => exact hloopthm
    | ok u => simp

/-- Witness for C10 with a two-page document whose renderer always returns
a singleton list. -/
theorem C10_witness :
    get_total_pages (ProcResult.mk 0 ["Pages: 2"]) = .ok (Int.ofNat 2)
    ∧ (∀ i : Nat, 1 ≤ i → i ≤ 2 →
        ∃ (a : Img) (r : List Img),
          (fun (_ : Nat) => some [Img.mk 800 600 "RGBA"]) i = some (a :: r))
    ∧ ∀ k, (convert_pdf_to_slides "deck.pdf"
        ⟨⟨0, ["Pages: 2"]⟩, fun _ => some [⟨800, 600, "RGBA"⟩], "T"⟩ []).result
          ≠ .error (.indexError k) :=
  ⟨rfl, fun _ _ _ => ⟨⟨800, 600, "RGBA"⟩, [], rfl⟩,
    C10_pages_index_safe "deck.pdf"
      ⟨⟨0, ["Pages: 2"]⟩, fun _ => some [⟨800, 600, "RGBA"⟩], "T"⟩ [] 2 rfl
      (fun _ _ _ => ⟨⟨800, 600, "RGBA"⟩, [], rfl⟩)⟩

/-- C6 counterexample: the script never inspects the external tool's exit
status, so a pdfinfo invocation that errors (returncode 1) but still prints
a Pages line makes get_total_pages return the integer instead of failing,
contradicting "fails ... when the external tool itself errors". -/
theorem C6_counterexample :
    (ProcResult.mk 1 ["Pages: 5"]).returncode ≠ 0
    ∧ get_total_pages (ProcResult.mk 1 ["Pages: 5"]) = .ok 5 :=
  ⟨by decide, rfl⟩

/-- C6 (amended): get_total_pages raises the MetadataUnavailable
RuntimeError exactly when no stdout line starts with "Pages:" -- the
tool's exit status is ignored; and when the first such line has the exact
form "Pages: " followed by the decimal digits of n, it returns n. -/
theorem C6_probe_contract_amended (r : ProcResult) :
    (get_total_pages r = .error PyErr.runtimeError
      ↔ ∀ l ∈ r.stdout, startsWithPages l = false)
    ∧ ∀ (pre post : List String) (n : Nat),
        r.stdout = pre ++ ("Pages: " ++ String.mk (natDec n)) :: post →
        (∀ l ∈ pre, startsWithPages l = false) →
        get_total_pages r = .ok (Int.ofNat n) := by
  refine ⟨findPagesLine_runtimeError r.stdout, fun pre post n hst hpre => ?_⟩
  rw [get_total_pages, hst]
  exact findPagesLine_found pre n post hpre

/-- Witness for the amended C6 on a concrete pdfinfo output with a
non-matching line before the Pages line. -/
theorem C6_witness :
    (ProcResult.mk 0 ["Producer: x", "Pages: 12"]).stdout
        = ["Producer: x"] ++ ("Pages: " ++ String.mk (natDec 12)) :: []
    ∧ (∀ l ∈ ["Producer: x"], startsWithPages l = false)
    ∧ get_total_pages (ProcResult.mk 0 ["Producer: x", "Pages: 12"]) = .ok (Int.ofNat 12) :=
  ⟨by decide, by decide,
    (C6_probe_contract_amended ⟨0, ["Producer: x", "Pages: 12"]⟩).2
      ["Producer: x"] [] 12 (by decide) (by decide)⟩

/-- C9: the metadata file path is a sibling of, not inside, the output
image directory; hence the output-directory reset never touches it: any
run that fails leaves the metadata entry exactly as it was (and never
writes to that path), and a successful run replaces it at the very end. -/
theorem C9_meta_survives (pdf : String) (w : World) (fs0 : FS) :
    pathInDir OUTPUT_DIR META_PATH = false
    ∧ (∀ e : RunError, (convert_pdf_to_slides pdf w fs0).result = .error e →
        (convert_pdf_to_slides pdf w fs0).fs.lookup META_PATH = fs0.lookup META_PATH
        ∧ ∀ x ∈ (convert_pdf_to_slides pdf w fs0).trace, x.1 ≠ META_PATH)
    ∧ ∀ n : Int, get_total_pages w.probe = .ok n →
        (convert_pdf_to_slides pdf w fs0).result = .ok () →
        (convert_pdf_to_slides pdf w fs0).fs.lookup META_PATH
          = some (Entry.json ⟨n, 1, w.now, os_path_basename pdf⟩) :=
  ⟨pathInDir_META, fun _ he => convert_error_frame he,
    fun _ hN hok => convert_ok_lookup_meta hN hok⟩

/-- Witness for C9 at a renderer that fails on page 1, run over a
filesystem holding the metadata file of an earlier completed run. -/
theorem C9_witness :
    pathInDir OUTPUT_DIR META_PATH = false
    ∧ (∀ e : RunError,
        (convert_pdf_to_slides "deck.pdf" ⟨⟨0, ["Pages: 2"]⟩, fun _ => none, "T"⟩
            [(META_PATH, Entry.json ⟨3, 1, "T0", "old.pdf"⟩)]).result = .error e →
        (convert_pdf_to_slides "deck.pdf" ⟨⟨0, ["Pages: 2"]⟩, fun _ => none, "T"⟩
            [(META_PATH, Entry.json ⟨3, 1, "T0", "old.pdf"⟩)]).fs.lookup META_PATH
          = [(META_PATH, Entry.json ⟨3, 1, "T0", "old.pdf"⟩)].lookup META_PATH
        ∧ ∀ x ∈ (convert_pdf_to_slides "deck.pdf" ⟨⟨0, ["Pages: 2"]⟩, fun _ => none, "T"⟩
            [(META_PATH, Entry.json ⟨3, 1, "T0", "old.pdf"⟩)]).trace, x.1 ≠ META_PATH)
    ∧ ∀ n : Int,
        get_total_pages (World.probe ⟨⟨0, ["Pages: 2"]⟩, fun _ => none, "T"⟩) = .ok n →
        (convert_pdf_to_slides "deck.pdf" ⟨⟨0, ["Pages: 2"]⟩, fun _ => none, "T"⟩
            [(META_PATH, Entry.json ⟨3, 1, "T0", "old.pdf"⟩)]).result = .ok () →
        (convert_pdf_to_slides "deck.pdf" ⟨⟨0, ["Pages: 2"]⟩, fun _ => none, "T"⟩
            [(META_PATH, Entry.json ⟨3, 1, "T0", "old.pdf"⟩)]).fs.lookup META_PATH
          = some (Entry.json ⟨n, 1, "T", os_path_basename "deck.pdf"⟩) :=
  C9_meta_survives "deck.pdf" ⟨⟨0, ["Pages: 2"]⟩, fun _ => none, "T"⟩
    [(META_PATH, Entry.json ⟨3, 1, "T0", "old.pdf"⟩)]

/-- C1: on a successful run over a source whose probed page count is n,
the writes into the output directory are exactly the slides for pages
1..n in strictly increasing page order with no gaps (each named by the
zero-padded scheme of slideName), slide names are pairwise distinct, and
the output directory's final contents are exactly those n slide files. -/
theorem C1_slides_complete (pdf : String) (w : World) (fs0 : FS) (n : Nat)
    (hN : get_total_pages w.probe = .ok (Int.ofNat n))
    (hok : (convert_pdf_to_slides pdf w fs0).result = .ok ())
    (hfs : dirConsistent fs0) :
    slideWrites (convert_pdf_to_slides pdf w fs0).trace
        = (List.range' 1 n).map (fun i => (slidePath i, renderedEntry w i))
    ∧ (∀ i j : Nat, slideName i = slideName j → i = j)
    ∧ ∀ p : String, pathInDir OUTPUT_DIR p = true →
        (((convert_pdf_to_slides pdf w fs0).fs.lookup p).isSome = true
          ↔ ∃ i, 1 ≤ i ∧ i ≤ n ∧ p = slidePath i) := by
  have ht : (Int.ofNat n).toNat = n := rfl
  refine ⟨?_, fun i j => slideName_inj, fun p hp => ?_⟩
  · rw [convert_ok_trace hN hok, slideTrace, ht]
  · constructor
    · intro hsome
      by_cases hex : ∃ i, 1 ≤ i ∧ i ≤ n ∧ p = slidePath i
      · exact hex
      · exfalso
        have hns : ∀ i, 1 ≤ i → i ≤ (Int.ofNat n).toNat → p ≠ slidePath i := by
          intro i hi1 hi2 he
          rw [ht] at hi2
          exact hex ⟨i, hi1, hi2, he⟩
        rw [convert_ok_lookup_inDir_none hN hok hfs hp hns] at hsome
        simp at hsome
    · rintro ⟨i, hi1, hi2, rfl⟩
      rw [convert_ok_lookup_slide hN hok hi1 (by rw [ht]; exact hi2)]
      rfl

/-- Witness for C1 on a concrete two-page run from an empty filesystem. -/
theorem C1_witness :
    get_total_pages (ProcResult.mk 0 ["Pages: 2"]) = .ok (Int.ofNat 2)
    ∧ (convert_pdf_to_slides "deck.pdf"
        ⟨⟨0, ["Pages: 2"]⟩, fun _ => some [⟨800, 600, "RGBA"⟩], "T"⟩ []).result = .ok ()
    ∧ dirConsistent []
    ∧ (slideWrites (convert_pdf_to_slides "deck.pdf"
          ⟨⟨0, ["Pages: 2"]⟩, fun _ => some [⟨800, 600, "RGBA"⟩], "T"⟩ []).trace
        = (List.range' 1 2).map (fun i => (slidePath i,
            renderedEntry ⟨⟨0, ["Pages: 2"]⟩, fun _ => some [⟨800, 600, "RGBA"⟩], "T"⟩ i))
      ∧ (∀ i j : Nat, slideName i = slideName j → i = j)
      ∧ ∀ p : String, pathInDir OUTPUT_DIR p = true →
          (((convert_pdf_to_slides "deck.pdf"
              ⟨⟨0, ["Pages: 2"]⟩, fun _ => some [⟨800, 600, "RGBA"⟩], "T"⟩ []).fs.lookup p).isSome
            = true ↔ ∃ i, 1 ≤ i ∧ i ≤ 2 ∧ p = slidePath i)) :=
  ⟨rfl, rfl, fun _ _ _ => rfl,
    C1_slides_complete "deck.pdf"
      ⟨⟨0, ["Pages: 2"]⟩, fun _ => some [⟨800, 600, "RGBA"⟩], "T"⟩ [] 2 rfl rfl
      (fun _ _ _ => rfl)⟩

/-- C2: on a successful run the metadata document records total_pages
equal to the number of slide files actually written, version 1, and
source_pdf equal to the base name of the input path. -/
theorem C2_metadata_consistent (pdf : String) (w : World) (fs0 : FS) (n : Nat)
    (hN : get_total_pages w.probe = .ok (Int.ofNat n))
    (hok : (convert_pdf_to_slides pdf w fs0).result = .ok ()) :
    ∃ m : MetaJson,
      (convert_pdf_to_slides pdf w fs0).fs.lookup META_PATH = some (Entry.json m)
      ∧ m.total_pages
          = Int.ofNat (slideWrites (convert_pdf_to_slides pdf w fs0).trace).length
      ∧ m.version = 1
      ∧ m.source_pdf = os_path_basename pdf := by
  refine ⟨⟨Int.ofNat n, 1, w.now, os_path_basename pdf⟩,
    convert_ok_lookup_meta hN hok, ?_, rfl, rfl⟩
  rw [convert_ok_trace hN hok, slideTrace]
  simp

/-- Witness for C2 on the concrete two-page run. -/
theorem C2_witness :
    get_total_pages (ProcResult.mk 0 ["Pages: 2"]) = .ok (Int.ofNat 2)
    ∧ (convert_pdf_to_slides "slides/deck.pdf"
        ⟨⟨0, ["Pages: 2"]⟩, fun _ => some [⟨800, 600, "RGBA"⟩], "T"⟩ []).result = .ok ()
    ∧ ∃ m : MetaJson,
        (convert_pdf_to_slides "slides/deck.pdf"
          ⟨⟨0, ["Pages: 2"]⟩, fun _ => some [⟨800, 600, "RGBA"⟩], "T"⟩ []).fs.lookup META_PATH
          = some (Entry.json m)
        ∧ m.total_pages = Int.ofNat (slideWrites (convert_pdf_to_slides "slides/deck.pdf"
            ⟨⟨0, ["Pages: 2"]⟩, fun _ => some [⟨800, 600, "RGBA"⟩], "T"⟩ []).trace).length
        ∧ m.version = 1
        ∧ m.source_pdf = os_path_basename "slides/deck.pdf" :=
  ⟨rfl, rfl,
    C2_metadata_consistent "slides/deck.pdf"
      ⟨⟨0, ["Pages: 2"]⟩, fun _ => some [⟨800, 600, "RGBA"⟩], "T"⟩ [] 2 rfl rfl⟩

/-- C3: if rendering page i fails, the whole run fails fatally with the
render error (no skip, retry, or partial-success continuation); the slide
files already written for indices j < i remain in the final state, they
are the only writes into the output directory, and the metadata write
step is never reached. -/
theorem C3_render_failure_fatal (pdf : String) (w : World) (fs0 : FS) (n i : Nat)
    (hN : get_total_pages w.probe = .ok (Int.ofNat n))
    (hi1 : 1 ≤ i) (hi2 : i ≤ n)
    (hprev : ∀ j, 1 ≤ j → j < i → ∃ a r, w.render j = some (a :: r))
    (hfail : w.render i = none) :
    (convert_pdf_to_slides pdf w fs0).result = .error (.renderFailure i)
    ∧ (∀ j, 1 ≤ j → j < i → ∃ img,
        (convert_pdf_to_slides pdf w fs0).fs.lookup (slidePath j)
          = some (Entry.jpeg img JPG_QUALITY))
    ∧ slideWrites (convert_pdf_to_slides pdf w fs0).trace
        = (List.range' 1 (i - 1)).map (fun j => (slidePath j, renderedEntry w j))
    ∧ (convert_pdf_to_slides pdf w fs0).fs.lookup META_PATH = fs0.lookup META_PATH
    ∧ ∀ x ∈ (convert_pdf_to_slides pdf w fs0).trace, x.1 ≠ META_PATH := by
  have hC := convert_fail_eq pdf w fs0 hN hi1 (show i ≤ (Int.ofNat n).toNat from hi2) hprev hfail
  rw [hC]
  refine ⟨rfl, ?_, ?_, ?_, ?_⟩
  · intro j hj1 hj2
    obtain ⟨a, r, hr⟩ := hprev j hj1 hj2
    have hl := lookup_writeAll_mem (w := w) (resetOutputDir fs0) hj1
      (show j ≤ i - 1 by omega)
    rw [renderedEntry_of_render hr] at hl
    exact ⟨_, hl⟩
  · exact slideWrites_slideTrace w _
  · calc (writeAll w (List.range' 1 (i - 1)) (resetOutputDir fs0)).lookup META_PATH
        = (resetOutputDir fs0).lookup META_PATH :=
          lookup_writeAll_not_slide _ (fun j _ => slidePath_ne_META j)
      _ = fs0.lookup META_PATH := lookup_reset_out META_ne_OUTPUT pathInDir_META fs0
  · intro x hx
    rcases List.mem_map.1 hx with ⟨j, -, rfl⟩
    exact slidePath_ne_META j

/-- Witness for C3: a three-page document whose renderer raises on page 2. -/
theorem C3_witness :
    get_total_pages (ProcResult.mk 0 ["Pages: 3"]) = .ok (Int.ofNat 3)
    ∧ (1 : Nat) ≤ 2 ∧ (2 : Nat) ≤ 3
    ∧ (∀ j : Nat, 1 ≤ j → j < 2 → ∃ (a : Img) (r : List Img),
        (fun i => if i = 2 then none else some [Img.mk 800 600 "L"]) j = some (a :: r))
    ∧ (fun (i : Nat) => if i = 2 then none else some [Img.mk 800 600 "L"]) 2 = none
    ∧ ((convert_pdf_to_slides "deck.pdf"
          ⟨⟨0, ["Pages: 3"]⟩, fun i => if i = 2 then none else some [Img.mk 800 600 "L"], "T"⟩
          []).result = .error (.renderFailure 2)
      ∧ (∀ j, 1 ≤ j → j < 2 → ∃ img,
          (convert_pdf_to_slides "deck.pdf"
            ⟨⟨0, ["Pages: 3"]⟩, fun i => if i = 2 then none else some [Img.mk 800 600 "L"], "T"⟩
            []).fs.lookup (slidePath j) = some (Entry.jpeg img JPG_QUALITY))
      ∧ slideWrites (convert_pdf_to_slides "deck.pdf"
            ⟨⟨0, ["Pages: 3"]⟩, fun i => if i = 2 then none else some [Img.mk 800 600 "L"], "T"⟩
            []).trace
          = (List.range' 1 (2 - 1)).map (fun j => (slidePath j,
              renderedEntry ⟨⟨0, ["Pages: 3"]⟩,
                fun i => if i = 2 then none else some [Img.mk 800 600 "L"], "T"⟩ j))
      ∧ (convert_pdf_to_slides "deck.pdf"
            ⟨⟨0, ["Pages: 3"]⟩, fun i => if i = 2 then none else some [Img.mk 800 600 "L"], "T"⟩
            []).fs.lookup META_PATH = ([] : FS).lookup META_PATH
      ∧ ∀ x ∈ (convert_pdf_to_slides "deck.pdf"
            ⟨⟨0, ["Pages: 3"]⟩, fun i => if i = 2 then none else some [Img.mk 800 600 "L"], "T"⟩
            []).trace, x.1 ≠ META_PATH) :=
  ⟨rfl, by omega, by omega,
    fun j h1 h2 => by
      interval_cases j
      · exact ⟨Img.mk 800 600 "L", [], rfl⟩,
    rfl,
    C3_render_failure_fatal "deck.pdf"
      ⟨⟨0, ["Pages: 3"]⟩, fun i => if i = 2 then none else some [Img.mk 800 600 "L"], "T"⟩
      [] 3 2 rfl (by omega) (by omega)
      (fun j h1 h2 => by
        interval_cases j
        · exact ⟨Img.mk 800 600 "L", [], rfl⟩)
      rfl⟩

/-- C8: for a source whose probed page count is 0, the run succeeds, the
output directory is (re)created but contains no slide files (the render
loop executes zero iterations and nothing is written into the directory),
and the metadata document records total_pages = 0. -/
theorem C8_zero_pages (pdf : String) (w : World) (fs0 : FS)
    (hN : get_total_pages w.probe = .ok 0) (hfs : dirConsistent fs0) :
    (convert_pdf_to_slides pdf w fs0).result = .ok ()
    ∧ (convert_pdf_to_slides pdf w fs0).fs.lookup OUTPUT_DIR = some Entry.dir
    ∧ (∀ p : String, pathInDir OUTPUT_DIR p = true →
        (convert_pdf_to_slides pdf w fs0).fs.lookup p = none)
    ∧ slideWrites (convert_pdf_to_slides pdf w fs0).trace = []
    ∧ ∃ m : MetaJson,
        (convert_pdf_to_slides pdf w fs0).fs.lookup META_PATH = some (Entry.json m)
        ∧ m.total_pages = 0 := by
  have hok : (convert_pdf_to_slides pdf w fs0).result = .ok () := by
    rw [convert_of_loop pdf w fs0 hN]
    rfl
  refine ⟨hok, convert_ok_lookup_dir hN hok, ?_, ?_, ?_⟩
  · intro p hp
    refine convert_ok_lookup_inDir_none hN hok hfs hp (fun i hi1 hi2 => ?_)
    exact absurd (hi1.trans hi2) (by omega)
  · rw [convert_ok_trace hN hok]
    rfl
  · exact ⟨⟨0, 1, w.now, os_path_basename pdf⟩, convert_ok_lookup_meta hN hok, rfl⟩

/-- Witness for C8 on a concrete zero-page document. -/
theorem C8_witness :
    get_total_pages (ProcResult.mk 0 ["Pages: 0"]) = .ok 0
    ∧ dirConsistent []
    ∧ ((convert_pdf_to_slides "empty.pdf"
          ⟨⟨0, ["Pages: 0"]⟩, fun _ => none, "T"⟩ []).result = .ok ()
      ∧ (convert_pdf_to_slides "empty.pdf"
          ⟨⟨0, ["Pages: 0"]⟩, fun _ => none, "T"⟩ []).fs.lookup OUTPUT_DIR = some Entry.dir
      ∧ (∀ p : String, pathInDir OUTPUT_DIR p = true →
          (convert_pdf_to_slides "empty.pdf"
            ⟨⟨0, ["Pages: 0"]⟩, fun _ => none, "T"⟩ []).fs.lookup p = none)
      ∧ slideWrites (convert_pdf_to_slides "empty.pdf"
          ⟨⟨0, ["Pages: 0"]⟩, fun _ => none, "T"⟩ []).trace = []
      ∧ ∃ m : MetaJson,
          (convert_pdf_to_slides "empty.pdf"
            ⟨⟨0, ["Pages: 0"]⟩, fun _ => none, "T"⟩ []).fs.lookup META_PATH
            = some (Entry.json m)
          ∧ m.total_pages = 0) :=
  ⟨rfl, fun _ _ _ => rfl,
    C8_zero_pages "empty.pdf" ⟨⟨0, ["Pages: 0"]⟩, fun _ => none, "T"⟩ [] rfl
      (fun _ _ _ => rfl)⟩

/-- C7: running the converter twice on the same input and output location
is idempotent in content: the second run's directory reset first deletes
every file inside the output directory left by the first run, the second
run also succeeds, the final file set agrees with the first run's at every
path except the metadata file, and the two metadata documents agree on
total_pages, version and source_pdf, differing only in generated_at. -/
theorem C7_rerun_idempotent (pdf : String) (w1 w2 : World) (fs0 : FS) (n : Nat)
    (hp : w1.probe = w2.probe) (hr : w1.render = w2.render)
    (hN : get_total_pages w1.probe = .ok (Int.ofNat n))
    (h1 : (convert_pdf_to_slides pdf w1 fs0).result = .ok ())
    (hfs : dirConsistent fs0) :
    (∀ p : String, pathInDir OUTPUT_DIR p = true →
        (resetOutputDir (convert_pdf_to_slides pdf w1 fs0).fs).lookup p = none)
    ∧ (convert_pdf_to_slides pdf w2 (convert_pdf_to_slides pdf w1 fs0).fs).result = .ok ()
    ∧ (∀ p : String, p ≠ META_PATH →
        (convert_pdf_to_slides pdf w2 (convert_pdf_to_slides pdf w1 fs0).fs).fs.lookup p
          = (convert_pdf_to_slides pdf w1 fs0).fs.lookup p)
    ∧ (convert_pdf_to_slides pdf w1 fs0).fs.lookup META_PATH
        = some (Entry.json ⟨Int.ofNat n, 1, w1.now, os_path_basename pdf⟩)
    ∧ (convert_pdf_to_slides pdf w2 (convert_pdf_to_slides pdf w1 fs0).fs).fs.lookup META_PATH
        = some (Entry.json ⟨Int.ofNat n, 1, w2.now, os_path_basename pdf⟩) := by
  have hN2 : get_total_pages w2.probe = .ok (Int.ofNat n) := by rw [← hp]; exact hN
  have hg1dir : (convert_pdf_to_slides pdf w1 fs0).fs.lookup OUTPUT_DIR = some Entry.dir :=
    convert_ok_lookup_dir hN h1
  have hg1ex : pathExists OUTPUT_DIR (convert_pdf_to_slides pdf w1 fs0).fs = true := by
    rw [pathExists, hg1dir]
    rfl
  have hg1con : dirConsistent (convert_pdf_to_slides pdf w1 fs0).fs :=
    dirConsistent_of_exists hg1ex
  have h2 : (convert_pdf_to_slides pdf w2 (convert_pdf_to_slides pdf w1 fs0).fs).result
      = .ok () := by
    rw [convert_result_dep hp.symm hr.symm (convert_pdf_to_slides pdf w1 fs0).fs fs0]
    exact h1
  have hrent : ∀ i, renderedEntry w1 i = renderedEntry w2 i := by
    intro i
    rw [renderedEntry, renderedEntry, hr]
  refine ⟨?_, h2, ?_, convert_ok_lookup_meta hN h1, convert_ok_lookup_meta hN2 h2⟩
  · intro p hpd
    exact lookup_reset_inDir hpd _ hg1con
  · intro p hpm
    by_cases hpd : pathInDir OUTPUT_DIR p = true
    · by_cases hex : ∃ i, 1 ≤ i ∧ i ≤ n ∧ p = slidePath i
      · obtain ⟨i, hi1, hi2, rfl⟩ := hex
        rw [convert_ok_lookup_slide hN2 h2 hi1 hi2,
            convert_ok_lookup_slide hN h1 hi1 hi2, hrent i]
      · have hns : ∀ i, 1 ≤ i → i ≤ (Int.ofNat n).toNat → p ≠ slidePath i := by
          intro i hi1 hi2 he
          exact hex ⟨i, hi1, hi2, he⟩
        rw [convert_ok_lookup_inDir_none hN2 h2 hg1con hpd hns,
            convert_ok_lookup_inDir_none hN h1 hfs hpd hns]
    · have hpd' : pathInDir OUTPUT_DIR p = false := by simpa using hpd
      by_cases hpo : p = OUTPUT_DIR
      · subst hpo
        rw [convert_ok_lookup_dir hN2 h2, hg1dir]
      · exact convert_ok_lookup_out hN2 h2 hpm hpo hpd'

/-- Witness for C7: two consecutive runs with identical probe and renderer
but different timestamps, starting from an empty filesystem. -/
theorem C7_witness :
    (World.probe ⟨⟨0, ["Pages: 2"]⟩, fun _ => some [⟨800, 600, "RGBA"⟩], "T1"⟩)
        = (World.probe ⟨⟨0, ["Pages: 2"]⟩, fun _ => some [⟨800, 600, "RGBA"⟩], "T2"⟩)
    ∧ (World.render ⟨⟨0, ["Pages: 2"]⟩, fun _ => some [⟨800, 600, "RGBA"⟩], "T1"⟩)
        = (World.render ⟨⟨0, ["Pages: 2"]⟩, fun _ => some [⟨800, 600, "RGBA"⟩], "T2"⟩)
    ∧ get_total_pages (ProcResult.mk 0 ["Pages: 2"]) = .ok (Int.ofNat 2)
    ∧ (convert_pdf_to_slides "deck.pdf"
        ⟨⟨0, ["Pages: 2"]⟩, fun _ => some [⟨800, 600, "RGBA"⟩], "T1"⟩ []).result = .ok ()
    ∧ dirConsistent []
    ∧ ((∀ p : String, pathInDir OUTPUT_DIR p = true →
          (resetOutputDir (convert_pdf_to_slides "deck.pdf"
            ⟨⟨0, ["Pages: 2"]⟩, fun _ => some [⟨800, 600, "RGBA"⟩], "T1"⟩ []).fs).lookup p
            = none)
      ∧ (convert_pdf_to_slides "deck.pdf"
          ⟨⟨0, ["Pages: 2"]⟩, fun _ => some [⟨800, 600, "RGBA"⟩], "T2"⟩
          (convert_pdf_to_slides "deck.pdf"
            ⟨⟨0, ["Pages: 2"]⟩, fun _ => some [⟨800, 600, "RGBA"⟩], "T1"⟩ []).fs).result
          = .ok ()
      ∧ (∀ p : String, p ≠ META_PATH →
          (convert_pdf_to_slides "deck.pdf"
            ⟨⟨0, ["Pages: 2"]⟩, fun _ => some [⟨800, 600, "RGBA"⟩], "T2"⟩
            (convert_pdf_to_slides "deck.pdf"
              ⟨⟨0, ["Pages: 2"]⟩, fun _ => some [⟨800, 600, "RGBA"⟩], "T1"⟩ []).fs).fs.lookup p
            = (convert_pdf_to_slides "deck.pdf"
              ⟨⟨0, ["Pages: 2"]⟩, fun _ => some [⟨800, 600, "RGBA"⟩], "T1"⟩ []).fs.lookup p)
      ∧ (convert_pdf_to_slides "deck.pdf"
          ⟨⟨0, ["Pages: 2"]⟩, fun _ => some [⟨800, 600, "RGBA"⟩], "T1"⟩ []).fs.lookup META_PATH
          = some (Entry.json ⟨Int.ofNat 2, 1, "T1", os_path_basename "deck.pdf"⟩)
      ∧ (convert_pdf_to_slides "deck.pdf"
          ⟨⟨0, ["Pages: 2"]⟩, fun _ => some [⟨800, 600, "RGBA"⟩], "T2"⟩
          (convert_pdf_to_slides "deck.pdf"
            ⟨⟨0, ["Pages: 2"]⟩, fun _ => some [⟨800, 600, "RGBA"⟩], "T1"⟩ []).fs).fs.lookup
            META_PATH
          = some (Entry.json ⟨Int.ofNat 2, 1, "T2", os_path_basename "deck.pdf"⟩)) :=
  ⟨rfl, rfl, rfl, rfl, fun _ _ _ => rfl,
    C7_rerun_idempotent "deck.pdf"
      ⟨⟨0, ["Pages: 2"]⟩, fun _ => some [⟨800, 600, "RGBA"⟩], "T1"⟩
      ⟨⟨0, ["Pages: 2"]⟩, fun _ => some [⟨800, 600, "RGBA"⟩], "T2"⟩
      [] 2 rfl rfl rfl rfl (fun _ _ _ => rfl)⟩
